import Mathlib

/-!
Shallow embedding of the attack-technique report component
(monkey_island/cc/services/attack/technique_reports, class AttackTechnique):
status resolution, message composition and report-entry assembly.

External collaborators (the MongoDB telemetry collection, AttackConfig,
AttackMitigations, the configuration schema) are modelled as explicit data
passed to the functions; the class-level mutable cache
config_schema_per_attack_technique is modelled as explicitly threaded state.
-/

set_option autoImplicit false

namespace TechniqueReports

namespace ScanStatus

/-- Modelled from the spec: the ScanStatus enumeration lives in
common/utils/attack_utils.py, which is not under src/; the spec fixes four
distinct observation levels (disabled, not-observed alias unscanned, scanned,
used). Only distinctness of the numeric values is relied on anywhere. -/
def UNSCANNED : Int := 0

/-- Numeric value of the scanned (reconnaissance evidence) level. -/
def SCANNED : Int := 1

/-- Numeric value of the used (exploitation evidence) level. -/
def USED : Int := 2

/-- Numeric value of the disabled level. -/
def DISABLED : Int := 3

end ScanStatus

/-- Record of the abstract properties every AttackTechnique subclass provides
(tech_id, unscanned_msg, scanned_msg, used_msg, relevant_systems), together
with the catalog title returned by AttackConfig.get_technique. -/
structure Technique where
  tech_id : String
  unscanned_msg : String
  scanned_msg : String
  used_msg : String
  relevant_systems : List String
  title : String
deriving Repr, DecidableEq

/-- One document of the mongo.db.telemetry collection, restricted to the
fields the status queries of technique_status match on. -/
structure TelemetryEvent where
  telem_category : String
  status : Int
  technique : String
deriving Repr, DecidableEq

/-- Gate index config_schema_per_attack_technique: technique id to a dict from
config category to the field names under it, as insertion-ordered association
lists (Python dicts preserve insertion order). -/
abbrev GateIndex := List (String × List (String × List String))

/-- Ordered-dict lookup: first entry whose key matches. -/
def lookup {α : Type} (l : List (String × α)) (k : String) : Option α :=
  (l.find? (fun p => p.1 == k)).map (fun p => p.2)

/-- Result of AttackConfig.get_technique_values: technique id to enabled flag. -/
abbrev TechniqueValues := List (String × Bool)

/-- Mitigation catalog AttackMitigations: technique id to mitigation entries. -/
abbrev MitigationCatalog := List (String × List String)

/-- External state read by technique_status: the configuration's technique
values and the telemetry collection contents. -/
structure Env where
  techniqueValues : TechniqueValues
  telemetry : List TelemetryEvent
deriving Repr, DecidableEq

/-- Module-level disabled_msg string. -/
def disabled_msg : String :=
  "This technique has been disabled. "
    ++ "You can enable it from the [configuration page](../../configure)."

/-- Embedding of AttackTechnique._is_enabled_in_config: indexes the dict
AttackConfig.get_technique_values() at cls.tech_id; indexing a missing key
raises KeyError. -/
def is_enabled_in_config (cfg : TechniqueValues) (t : Technique) : Except String Bool :=
  match lookup cfg t.tech_id with
  | some b => .ok b
  | none => .error "KeyError"

/-- Embedding of the query
mongo.db.telemetry.find_one on telem_category "attack", data.status s and
data.technique tid: only existence of a matching document matters. -/
def find_telemetry (log : List TelemetryEvent) (s : Int) (tid : String) : Bool :=
  log.any (fun e => e.telem_category == "attack" && e.status == s && e.technique == tid)

/-- Outcome of technique_status, paired with the number of telemetry queries
the run performed (the if/elif chain short-circuits, so the disabled branch
issues none, the used branch one, the remaining branches two). -/
structure StatusResult where
  value : Int
  logQueries : Nat
deriving Repr, DecidableEq

/-- Embedding of AttackTechnique.technique_status. -/
def technique_status (env : Env) (t : Technique) : Except String StatusResult :=
  match is_enabled_in_config env.techniqueValues t with
  | .error e => .error e
  | .ok enabled =>
    if !enabled then .ok ⟨ScanStatus.DISABLED, 0⟩
    else if find_telemetry env.telemetry ScanStatus.USED t.tech_id then
      .ok ⟨ScanStatus.USED, 1⟩
    else if find_telemetry env.telemetry ScanStatus.SCANNED t.tech_id then
      .ok ⟨ScanStatus.SCANNED, 2⟩
    else .ok ⟨ScanStatus.UNSCANNED, 2⟩

/-- Python str.strip(chars): remove leading and trailing characters drawn from
the set chars. -/
def pyStrip (chars : List Char) (s : String) : String :=
  String.mk
    (((s.data.dropWhile (fun c => chars.contains c)).reverse.dropWhile
      (fun c => chars.contains c)).reverse)

/-- Embedding of AttackTechnique._get_relevant_config_values, applied to the
categories dict config_schema_per_attack_technique[cls.tech_id]; the caller
checks membership before calling. -/
def get_relevant_config_values (cats : List (String × List String)) : String :=
  cats.foldl
    (fun acc c =>
      acc ++ "- " ++ c.1 ++ " — " ++ String.intercalate ", " c.2 ++ "<br/>") ""

/-- Reason lines accumulated by _get_unscanned_msg_with_reasons: the
single-relevant-OS line first, then the disabled-config-options line when the
technique id appears in the gate index. -/
def unscanned_reasons (t : Technique) (gi : GateIndex) : List String :=
  (if t.relevant_systems.length = 1 then
    ["- Monkey did not run on any " ++ t.relevant_systems.headD "" ++ " systems."]
  else []) ++
  (match lookup gi t.tech_id with
   | some cats =>
     ["- The following configuration options were disabled or empty:<br/>"
       ++ get_relevant_config_values cats]
   | none => [])

/-- Embedding of AttackTechnique._get_unscanned_msg_with_reasons. -/
def get_unscanned_msg_with_reasons (t : Technique) (gi : GateIndex) (base : String) :
    String :=
  let reasons := unscanned_reasons t gi
  if reasons.isEmpty then base
  else
    pyStrip ['.'] base ++ " due to one of the following reasons:\n"
      ++ String.intercalate "\n" reasons

/-- State of the class attribute config_schema_per_attack_technique: none
models the initial None. -/
abbrev Cache := Option GateIndex

/-- Python truthiness of the cache check
`if not cls.config_schema_per_attack_technique`: None and the empty dict are
both falsy. -/
def cacheFalsy : Cache → Bool
  | none => true
  | some gi => gi.isEmpty

/-- Embedding of AttackTechnique.get_message_by_status, with the class-level
cache threaded explicitly. currentGateIndex stands for the value that
ConfigSchemaPerAttackTechnique().get_config_schema_per_attack_technique(SCHEMA)
computes from the current configuration schema when the cache is repopulated. -/
def get_message_by_status (t : Technique) (currentGateIndex : GateIndex)
    (status : Int) (cache : Cache) : String × Cache :=
  if status = ScanStatus.DISABLED then (disabled_msg, cache)
  else if status = ScanStatus.UNSCANNED then
    let cache' := if cacheFalsy cache then some currentGateIndex else cache
    (get_unscanned_msg_with_reasons t (cache'.getD []) t.unscanned_msg, cache')
  else if status = ScanStatus.SCANNED then (t.scanned_msg, cache)
  else (t.used_msg, cache)

/-- Report-entry dict assembled by the builder operations; title and
mitigations are optional keys (absent when none). -/
structure ReportEntry where
  status : Int
  message : String
  title : Option String := none
  mitigations : Option (List String) := none
deriving Repr, DecidableEq

/-- Embedding of AttackTechnique.get_message_and_status. -/
def get_message_and_status (t : Technique) (gi : GateIndex) (status : Int)
    (cache : Cache) : ReportEntry × Cache :=
  let mc := get_message_by_status t gi status cache
  ({ status := status, message := mc.1 }, mc.2)

/-- Embedding of AttackTechnique.get_mitigation_by_status:
AttackMitigations.get_mitigation_by_technique_id fails when no mitigation
document exists for the technique id. -/
def get_mitigation_by_status (catalog : MitigationCatalog) (t : Technique)
    (status : Int) : Except String (Option (List String)) :=
  if status = ScanStatus.USED then
    match lookup catalog t.tech_id with
    | some ms => .ok (some ms)
    | none => .error "MitigationMissing"
  else .ok none

/-- Embedding of AttackTechnique.technique_title:
AttackConfig.get_technique(cls.tech_id)["title"], modelled as the stored
catalog title of the technique record. -/
def technique_title (t : Technique) : String := t.title

/-- Embedding of AttackTechnique.get_tech_base_data. -/
def get_tech_base_data (env : Env) (catalog : MitigationCatalog) (gi : GateIndex)
    (t : Technique) (cache : Cache) : Except String (ReportEntry × Cache) :=
  match technique_status env t with
  | .error e => .error e
  | .ok st =>
    let mc := get_message_by_status t gi st.value cache
    match get_mitigation_by_status catalog t st.value with
    | .error e => .error e
    | .ok mits =>
      .ok ({ status := st.value, message := mc.1, title := some (technique_title t),
             mitigations := mits }, mc.2)

/-- Embedding of AttackTechnique.get_base_data_by_status: builds from the
caller-supplied status without consulting the enabled flag. -/
def get_base_data_by_status (catalog : MitigationCatalog) (t : Technique)
    (gi : GateIndex) (status : Int) (cache : Cache) :
    Except String (ReportEntry × Cache) :=
  let ec := get_message_and_status t gi status cache
  match get_mitigation_by_status catalog t status with
  | .error e => .error e
  | .ok mits =>
    .ok ({ ec.1 with title := some (technique_title t), mitigations := mits }, ec.2)

/-- Embedding of AttackTechnique.is_status_disabled: wraps a status-and-data
computation with the disabled-in-config short-circuit and returns the wrapped
closure. -/
def is_status_disabled {α : Type} (cfg : TechniqueValues) (t : Technique)
    (f : Unit → Int × List α) : Unit → Except String (Int × List α) :=
  fun _ =>
    match is_enabled_in_config cfg t with
    | .error e => .error e
    | .ok enabled =>
      if !enabled then .ok (ScanStatus.DISABLED, ([] : List α)) else .ok (f ())

/-- Messages produced by one report-generation pass that renders the given
(technique, status) pairs in order, threading the class-level cache through
the successive get_message_by_status calls. -/
def run_request_msgs (gi : GateIndex) : List (Technique × Int) → Cache → List String
  | [], _ => []
  | r :: rs, c =>
    let mc := get_message_by_status r.1 gi r.2 c
    mc.1 :: run_request_msgs gi rs mc.2

/-- Modelled from the spec: the report-generation entry point is not under
src/ (only the AttackTechnique base class is). Per the spec, the process-wide
gate-index cache is invalidated at the start of each report-generation request
and recomputed from the current configuration; prevCache is whatever cache
state an earlier request left behind, and gi is the gate index the current
configuration schema yields. -/
def report_request (gi : GateIndex) (reqs : List (Technique × Int))
    (_prevCache : Cache) : List String :=
  run_request_msgs gi reqs none

/-! Concrete fixtures used by witnesses and counterexamples. -/

/-- Sample brute-force technique, relevant to two OS families. -/
def tBrute : Technique :=
  { tech_id := "T1110", unscanned_msg := "Brute force not attempted.",
    scanned_msg := "Brute force scanned", used_msg := "Brute force used",
    relevant_systems := ["Linux", "Windows"], title := "T1110 Brute force" }

/-- Sample trap-command technique, relevant to exactly one OS family, whose
base unscanned message carries a leading and a trailing period. -/
def tTrap : Technique :=
  { tech_id := "T1154", unscanned_msg := ".Trap command not used.",
    scanned_msg := "Trap command scanned", used_msg := "Trap command used",
    relevant_systems := ["Linux"], title := "T1154 Trap" }

/-- Sample single-OS variant of the brute-force technique. -/
def tBruteLinux : Technique :=
  { tBrute with relevant_systems := ["Linux"] }

/-- Sample technique values: brute force disabled, trap enabled. -/
def cfgSample : TechniqueValues := [("T1110", false), ("T1154", true)]

/-- Sample telemetry log holding a scanned and a used event for each sample
technique. -/
def logSample : List TelemetryEvent :=
  [⟨"attack", ScanStatus.SCANNED, "T1110"⟩, ⟨"attack", ScanStatus.USED, "T1110"⟩,
   ⟨"attack", ScanStatus.SCANNED, "T1154"⟩, ⟨"attack", ScanStatus.USED, "T1154"⟩]

/-- Sample mitigation catalog. -/
def catalogSample : MitigationCatalog :=
  [("T1110", ["Use multi-factor authentication"]), ("T1154", ["Audit shell profiles"])]

/-- Sample gate index with one disabled config field for the brute-force
technique. -/
def giSample : GateIndex := [("T1110", [("Brute force", ["threads_count"])])]

/-! Claims. -/

/-- C1: for every technique whose enabled flag in the configuration is false,
technique_status returns the disabled status whatever the telemetry log
contains, and performs no telemetry query. -/
theorem c1_disabled_short_circuit (cfg : TechniqueValues) (t : Technique)
    (h : lookup cfg t.tech_id = some false) (log : List TelemetryEvent) :
    technique_status ⟨cfg, log⟩ t = .ok ⟨ScanStatus.DISABLED, 0⟩ := by
  simp [technique_status, is_enabled_in_config, h]

/-- Witness for C1 at a concrete disabled technique, with a log that even
contains used and scanned events for it. -/
theorem c1_disabled_short_circuit_witness :
    lookup cfgSample tBrute.tech_id = some false ∧
    technique_status ⟨cfgSample, logSample⟩ tBrute = .ok ⟨ScanStatus.DISABLED, 0⟩ :=
  ⟨by decide, c1_disabled_short_circuit cfgSample tBrute (by decide) logSample⟩

/-- C2: for every enabled technique with a used-level telemetry event in the
log, technique_status returns the used status (after exactly one telemetry
query), whatever other events — scanned ones included — the log holds. -/
theorem c2_used_precedence (cfg : TechniqueValues) (t : Technique)
    (log : List TelemetryEvent) (e : TelemetryEvent)
    (henabled : lookup cfg t.tech_id = some true)
    (hmem : e ∈ log) (hcat : e.telem_category = "attack")
    (hstat : e.status = ScanStatus.USED) (htech : e.technique = t.tech_id) :
    technique_status ⟨cfg, log⟩ t = .ok ⟨ScanStatus.USED, 1⟩ := by
  have hfind : find_telemetry log ScanStatus.USED t.tech_id = true := by
    apply List.any_eq_true.mpr
    exact ⟨e, hmem, by simp [hcat, hstat, htech]⟩
  simp [technique_status, is_enabled_in_config, henabled, hfind]

/-- Witness for C2 at a concrete enabled technique whose log holds both a
scanned and a used event. -/
theorem c2_used_precedence_witness :
    lookup cfgSample tTrap.tech_id = some true ∧
    (⟨"attack", ScanStatus.USED, "T1154"⟩ : TelemetryEvent) ∈ logSample ∧
    technique_status ⟨cfgSample, logSample⟩ tTrap = .ok ⟨ScanStatus.USED, 1⟩ :=
  ⟨by decide, by decide,
    c2_used_precedence cfgSample tTrap logSample ⟨"attack", ScanStatus.USED, "T1154"⟩
      (by decide) (by decide) rfl rfl rfl⟩

/-- C9: get_message_by_status falls through to the used message for every
integer status other than the disabled, unscanned and scanned values, leaving
the cache untouched. -/
theorem c9_fallthrough_used_msg (t : Technique) (gi : GateIndex) (c : Cache)
    (s : Int) (h1 : s ≠ ScanStatus.DISABLED) (h2 : s ≠ ScanStatus.UNSCANNED)
    (h3 : s ≠ ScanStatus.SCANNED) :
    get_message_by_status t gi s c = (t.used_msg, c) := by
  simp [get_message_by_status, h1, h2, h3]

/-- Witness for C9 at the out-of-enumeration status 42. -/
theorem c9_fallthrough_used_msg_witness :
    (42 : Int) ≠ ScanStatus.DISABLED ∧ (42 : Int) ≠ ScanStatus.UNSCANNED ∧
    (42 : Int) ≠ ScanStatus.SCANNED ∧
    get_message_by_status tBrute giSample 42 none = (tBrute.used_msg, none) :=
  ⟨by decide, by decide, by decide,
    c9_fallthrough_used_msg tBrute giSample none 42 (by decide) (by decide) (by decide)⟩

/-- C10: for every technique whose identifier is absent from the
configuration's technique-values mapping, technique_status propagates the
KeyError from the enabled check, whatever the telemetry log contains (so no
status is returned and the outcome is independent of the log). -/
theorem c10_missing_key_error (cfg : TechniqueValues) (t : Technique)
    (h : lookup cfg t.tech_id = none) (log : List TelemetryEvent) :
    technique_status ⟨cfg, log⟩ t = .error "KeyError" := by
  simp [technique_status, is_enabled_in_config, h]

/-- Witness for C10 at a technique missing from the mapping, with a log that
contains used events for it. -/
theorem c10_missing_key_error_witness :
    lookup [("T1110", true)] tTrap.tech_id = none ∧
    technique_status ⟨[("T1110", true)], logSample⟩ tTrap = .error "KeyError" :=
  ⟨by decide, c10_missing_key_error [("T1110", true)] tTrap (by decide) logSample⟩

/-- Updating an already-updated cache is a no-op: repopulating the class
attribute with the same current gate index leaves it unchanged. -/
theorem cache_update_idem (gi : GateIndex) (c : Cache) :
    (if cacheFalsy (if cacheFalsy c then some gi else c) then some gi
     else if cacheFalsy c then some gi else c) =
      (if cacheFalsy c then some gi else c) := by
  cases hc : cacheFalsy c with
  | true => simp [hc]
  | false => simp [hc]

/-- C8: get_message_by_status is idempotent in the threaded class-level cache:
a second call with the same technique, gate index and status, run on the cache
state the first call left behind, yields the same message (and in fact the
same cache). -/
theorem c8_message_idempotent (t : Technique) (gi : GateIndex) (s : Int)
    (c : Cache) :
    get_message_by_status t gi s ((get_message_by_status t gi s c).2) =
      get_message_by_status t gi s c := by
  by_cases h1 : s = ScanStatus.DISABLED
  · simp [get_message_by_status, h1]
  by_cases h2 : s = ScanStatus.UNSCANNED
  · have hci := cache_update_idem gi c
    simp [get_message_by_status, h1, h2, ScanStatus.UNSCANNED, ScanStatus.DISABLED, hci]
  by_cases h3 : s = ScanStatus.SCANNED
  · simp [get_message_by_status, h1, h2, h3, ScanStatus.UNSCANNED, ScanStatus.SCANNED,
      ScanStatus.DISABLED]
  · simp [get_message_by_status, h1, h2, h3]

/-- Under a cache that is either empty or holds the current gate index, a
get_message_by_status call produces the same message as a call on the fresh
(invalidated) cache, and leaves the cache again either empty or holding the
current gate index. -/
theorem get_message_fresh (t : Technique) (gi : GateIndex) (s : Int) (c : Cache)
    (hc : c = none ∨ c = some gi) :
    (get_message_by_status t gi s c).1 = (get_message_by_status t gi s none).1 ∧
    ((get_message_by_status t gi s c).2 = none ∨
      (get_message_by_status t gi s c).2 = some gi) := by
  by_cases h1 : s = ScanStatus.DISABLED
  · rcases hc with rfl | rfl <;> simp [get_message_by_status, h1]
  by_cases h2 : s = ScanStatus.UNSCANNED
  · rcases hc with rfl | rfl
    · simp [get_message_by_status, h1, h2, cacheFalsy, ScanStatus.UNSCANNED,
        ScanStatus.DISABLED]
    · by_cases hg : gi.isEmpty <;>
        simp [get_message_by_status, h1, h2, cacheFalsy, hg, ScanStatus.UNSCANNED,
          ScanStatus.DISABLED]
  by_cases h3 : s = ScanStatus.SCANNED
  · rcases hc with rfl | rfl <;>
      simp [get_message_by_status, h1, h2, h3, ScanStatus.UNSCANNED, ScanStatus.SCANNED,
        ScanStatus.DISABLED]
  · rcases hc with rfl | rfl <;> simp [get_message_by_status, h1, h2, h3]

/-- Starting from an empty-or-current cache, a rendering pass produces exactly
the messages computed from a fresh cache against the current gate index. -/
theorem run_request_msgs_fresh (gi : GateIndex) (reqs : List (Technique × Int))
    (c : Cache) (hc : c = none ∨ c = some gi) :
    run_request_msgs gi reqs c =
      reqs.map (fun r => (get_message_by_status r.1 gi r.2 none).1) := by
  induction reqs generalizing c with
  | nil => simp [run_request_msgs]
  | cons r rs ih =>
    have h := get_message_fresh r.1 gi r.2 c hc
    simp only [run_request_msgs, List.map]
    exact congrArg₂ _ h.1 (ih _ h.2)

/-- C4: a report-generation request invalidates the gate-index cache at its
start, so every message it renders is computed against the gate index of the
current configuration as from a fresh cache, and two requests starting from
different leftover cache states produce identical output — no request
observes another request's stale cache. -/
theorem c4_fresh_gate_index_per_request (gi : GateIndex)
    (reqs : List (Technique × Int)) (prev1 prev2 : Cache) :
    report_request gi reqs prev1 =
      reqs.map (fun r => (get_message_by_status r.1 gi r.2 none).1) ∧
    report_request gi reqs prev1 = report_request gi reqs prev2 :=
  ⟨run_request_msgs_fresh gi reqs none (Or.inl rfl), rfl⟩

/-- Composition rule exactly as claim C3 words it: when a reason line exists,
the base message with any trailing period stripped, followed by the literal
": due to one of the following reasons:" and the reason lines joined by
newlines; the base message verbatim otherwise. -/
def stripTrailingPeriod (s : String) : String :=
  if s.data.getLast? = some '.' then String.mk s.data.dropLast else s

/-- Message the C3 claim predicts for a given technique, gate index and base
message. -/
def compose_claim_c3 (t : Technique) (gi : GateIndex) (base : String) : String :=
  let reasons := unscanned_reasons t gi
  if reasons.isEmpty then base
  else
    stripTrailingPeriod base ++ ": due to one of the following reasons:\n"
      ++ String.intercalate "\n" reasons

/-- C3 counterexample: on a base message with a leading and a trailing period
and one reason line, the code joins with " due to one of the following
reasons:" (a space, no colon) and strips periods from both ends, so the
composed message differs from the one the claim predicts. -/
theorem c3_counterexample :
    get_unscanned_msg_with_reasons tTrap [] tTrap.unscanned_msg ≠
      compose_claim_c3 tTrap [] tTrap.unscanned_msg := by decide

/-- Leading periods removed from a character list. -/
def dropPeriods : List Char → List Char
  | [] => []
  | c :: cs => if c = '.' then dropPeriods cs else c :: cs

/-- Composition rule as amended: when a reason line exists, the base message
with leading and trailing periods stripped (Python str.strip with ".")
followed by a space, the words "due to one of the following reasons:", a
newline, and the reason lines separated by newlines; the base message
verbatim otherwise. -/
def compose_amended_c3 (t : Technique) (gi : GateIndex) (base : String) : String :=
  match unscanned_reasons t gi with
  | [] => base
  | rs =>
    String.mk ((dropPeriods ((dropPeriods base.data).reverse)).reverse)
      ++ " due to one of the following reasons:\n" ++ String.intercalate "\n" rs

/-- Removing leading periods is the dropWhile the embedding of str.strip
performs on one side. -/
theorem dropPeriods_eq_dropWhile (l : List Char) :
    dropPeriods l = l.dropWhile (fun c => List.contains ['.'] c) := by
  induction l with
  | nil => rfl
  | cons c cs ih =>
    by_cases h : c = '.'
    · subst h
      simpa [dropPeriods, List.dropWhile] using ih
    · simp [dropPeriods, List.dropWhile, h]

/-- Embedding of str.strip(".") agrees with the two-sided dropPeriods
formulation. -/
theorem pyStrip_period_eq (s : String) :
    pyStrip ['.'] s =
      String.mk ((dropPeriods ((dropPeriods s.data).reverse)).reverse) := by
  simp [pyStrip, dropPeriods_eq_dropWhile]

/-- C3 (amended): with at least one reason line, the composed not-observed
message is the base message stripped of leading and trailing periods,
followed by a space, "due to one of the following reasons:", a newline, and
the reason lines joined by newlines; with no reason line it is the base
message verbatim. -/
theorem c3_composition_amended (t : Technique) (gi : GateIndex) (base : String) :
    get_unscanned_msg_with_reasons t gi base = compose_amended_c3 t gi base := by
  unfold get_unscanned_msg_with_reasons compose_amended_c3
  cases h : unscanned_reasons t gi with
  | nil => simp [h]
  | cons r rs => simp [h, pyStrip_period_eq]

/-- C6: for a technique relevant to exactly one OS family whose identifier
appears in the gate index, the composed not-observed message ends with the
OS-unavailability line followed (after a newline) by the disabled-config-field
line — both reason lines present, the OS line first. -/
theorem c6_reason_lines_order (t : Technique) (gi : GateIndex) (os : String)
    (cats : List (String × List String))
    (h1 : t.relevant_systems = [os]) (h2 : lookup gi t.tech_id = some cats) :
    ∃ pre : String,
      get_unscanned_msg_with_reasons t gi t.unscanned_msg =
        pre ++ ("- Monkey did not run on any " ++ os ++ " systems." ++ "\n"
          ++ ("- The following configuration options were disabled or empty:<br/>"
            ++ get_relevant_config_values cats)) := by
  refine ⟨pyStrip ['.'] t.unscanned_msg ++ " due to one of the following reasons:\n", ?_⟩
  simp [get_unscanned_msg_with_reasons, unscanned_reasons, h1, h2,
    String.intercalate, String.intercalate.go, String.append_assoc]

/-- Witness for C6 at a concrete single-OS technique listed in the sample gate
index. -/
theorem c6_reason_lines_order_witness :
    tBruteLinux.relevant_systems = ["Linux"] ∧
    lookup giSample tBruteLinux.tech_id = some [("Brute force", ["threads_count"])] ∧
    ∃ pre : String,
      get_unscanned_msg_with_reasons tBruteLinux giSample tBruteLinux.unscanned_msg =
        pre ++ ("- Monkey did not run on any " ++ "Linux" ++ " systems." ++ "\n"
          ++ ("- The following configuration options were disabled or empty:<br/>"
            ++ get_relevant_config_values [("Brute force", ["threads_count"])])) :=
  ⟨rfl, by decide,
    c6_reason_lines_order tBruteLinux giSample "Linux" [("Brute force", ["threads_count"])]
      rfl (by decide)⟩

/-- C5 counterexample: for the sample technique whose enabled flag is false in
the sample configuration, get_base_data_by_status invoked with the used status
returns an entry carrying the used status, not the disabled one — the
operation applies no disabled short-circuit of its own. -/
theorem c5_counterexample :
    is_enabled_in_config cfgSample tBrute = .ok false ∧
    (get_base_data_by_status catalogSample tBrute [] ScanStatus.USED none).map
      (fun p => p.1.status) = .ok ScanStatus.USED ∧
    ScanStatus.USED ≠ ScanStatus.DISABLED :=
  ⟨rfl, rfl, by decide⟩

/-- C5 (amended): get_base_data_by_status applies no disabled short-circuit
itself — the returned entry carries the caller-supplied status unchanged; the
short-circuit belongs to the separate is_status_disabled wrapper, which for a
technique whose enabled flag is false returns the disabled status with empty
data regardless of the wrapped status computation. -/
theorem c5_status_passthrough_amended {α : Type} (catalog : MitigationCatalog)
    (t : Technique) (gi : GateIndex) (status : Int) (cache : Cache)
    (cfg : TechniqueValues) (f : Unit → Int × List α)
    (entry : ReportEntry) (c' : Cache)
    (hok : get_base_data_by_status catalog t gi status cache = .ok (entry, c'))
    (hdis : lookup cfg t.tech_id = some false) :
    entry.status = status ∧
    is_status_disabled cfg t f () = .ok (ScanStatus.DISABLED, ([] : List α)) := by
  refine ⟨?_, by simp [is_status_disabled, is_enabled_in_config, hdis]⟩
  simp only [get_base_data_by_status, get_message_and_status] at hok
  cases hm : get_mitigation_by_status catalog t status with
  | error e => simp [hm] at hok
  | ok mits =>
    simp only [hm] at hok
    injection hok with hpair
    injection hpair with h1 h2
    subst h1
    rfl

/-- Concrete report entry produced in the C5 witness run. -/
def entryC5 : ReportEntry :=
  { status := ScanStatus.USED, message := tBrute.used_msg,
    title := some tBrute.title,
    mitigations := some ["Use multi-factor authentication"] }

/-- Witness for the amended C5 at the disabled sample technique with the used
status supplied by the caller. -/
theorem c5_status_passthrough_amended_witness :
    get_base_data_by_status catalogSample tBrute [] ScanStatus.USED none =
      .ok (entryC5, none) ∧
    lookup cfgSample tBrute.tech_id = some false ∧
    (entryC5.status = ScanStatus.USED ∧
      is_status_disabled cfgSample tBrute (fun _ => (ScanStatus.USED, ["segment"])) ()
        = .ok (ScanStatus.DISABLED, ([] : List String))) :=
  ⟨rfl, rfl,
    c5_status_passthrough_amended catalogSample tBrute [] ScanStatus.USED none cfgSample
      (fun _ => (ScanStatus.USED, ["segment"])) entryC5 none rfl rfl⟩

/-- C7: whenever get_tech_base_data succeeds, the assembled report entry has a
mitigations field exactly when its status is the used value, and in the used
case the mitigations are the catalog record for the technique; every other
status carries no mitigations key. -/
theorem c7_mitigations_iff_used (env : Env) (catalog : MitigationCatalog)
    (gi : GateIndex) (t : Technique) (cache : Cache) (entry : ReportEntry)
    (c' : Cache)
    (hok : get_tech_base_data env catalog gi t cache = .ok (entry, c')) :
    (entry.mitigations.isSome ↔ entry.status = ScanStatus.USED) ∧
    (entry.status = ScanStatus.USED →
      lookup catalog t.tech_id = entry.mitigations) := by
  unfold get_tech_base_data at hok
  cases hst : technique_status env t with
  | error e => simp [hst] at hok
  | ok st =>
    simp only [hst] at hok
    by_cases hu : st.value = ScanStatus.USED
    · cases hl : lookup catalog t.tech_id with
      | none => simp [get_mitigation_by_status, hu, hl] at hok
      | some ms =>
        simp only [get_mitigation_by_status, hu, hl, if_pos] at hok
        injection hok with hpair
        injection hpair with h1 h2
        subst h1
        simp [hl]
    · simp only [get_mitigation_by_status, hu, if_neg] at hok
      injection hok with hpair
      injection hpair with h1 h2
      subst h1
      simp [hu]

/-- Concrete report entry produced in the C7 witness run. -/
def entryC7 : ReportEntry :=
  { status := ScanStatus.USED, message := tTrap.used_msg,
    title := some tTrap.title, mitigations := some ["Audit shell profiles"] }

/-- Witness for C7 at an enabled technique with a used telemetry event and a
catalog record. -/
theorem c7_mitigations_iff_used_witness :
    get_tech_base_data ⟨cfgSample, logSample⟩ catalogSample [] tTrap none =
      .ok (entryC7, none) ∧
    ((entryC7.mitigations.isSome ↔ entryC7.status = ScanStatus.USED) ∧
      (entryC7.status = ScanStatus.USED →
        lookup catalogSample tTrap.tech_id = entryC7.mitigations)) :=
  ⟨rfl,
    c7_mitigations_iff_used ⟨cfgSample, logSample⟩ catalogSample [] tTrap none entryC7
      none rfl⟩

end TechniqueReports
